import Mathlib

/-!
Shallow embedding of the `dao` ink! contract (src/lib.rs): a fungible
balance ledger, DAO/proposal/vote governance, and a global commit-reveal
beacon ("random number"). Host-supplied ambient data (caller identity,
current block number) is threaded as explicit parameters; the persistent
mappings become total functions to `Option`; machine integers (the u128
balances and the u32 block numbers / dao ids / proposal ids) become `Nat`
with explicit wrapping (`% 2^128`, `% 2^32`) at the arithmetic the source
performs.
The SHA2-256 host primitive used by `hash_value` is out of the contract's
code; it is abstracted as an explicit function parameter `hashFn` over the
big-endian byte encoding, which the source does compute itself.
-/

namespace DaoContract

/-- Modulus of the u128 `Balance` type. -/
def U128MOD : Nat := 2 ^ 128

/-- Modulus of the u32 `BlockNumber` / `DaoId` / `ProposalId` types. -/
def U32MOD : Nat := 2 ^ 32

/-- Rust u128 wrapping addition, as performed by `increase_balance`. -/
def wrapAdd (x y : Nat) : Nat := (x + y) % U128MOD

/-- Rust u128 wrapping (unguarded) subtraction, as performed by
`decrease_balance`. For `x y < 2^128` this is two's-complement wraparound. -/
def wrapSub (x y : Nat) : Nat := (x + U128MOD - y % U128MOD) % U128MOD

/-- The persistent `Mapping` / `BTreeMap`: a total function to `Option`. -/
abbrev Map (K V : Type) := K → Option V

def Map.empty {K V : Type} : Map K V := fun _ => none

def Map.getm {K V : Type} (m : Map K V) (k : K) : Option V := m k

def Map.insert {K V : Type} [DecidableEq K] (m : Map K V) (k : K) (v : V) :
    Map K V := fun k2 => if k2 = k then some v else m k2

/-- `Mapping::contains` / `BTreeMap::contains_key`. -/
def Map.containsKey {K V : Type} [DecidableEq K] (m : Map K V) (k : K) : Bool :=
  (m k).isSome

/-- `ContractError` from src/lib.rs (the `InsufficientPerimssion` spelling is
the source's). -/
inductive ContractError : Type
  | NonExistentDao
  | InsufficientPerimssion
  | InsufficientBalance
  | ProposalNonExistent
  | VoteAlreadyMade
  | VoteNotYetMade
  | VotingClosed
  | ValueAlreadySubmitted
  | InvalidRevealBlock
  | ValueNotSubmitted
  | InvalidReveal
  deriving DecidableEq, Repr

/-- The contract's emitted events. -/
inductive Event
  | ProposalCreated (dao_id : Nat) (proposal_id : Nat)
  | VoteMade (id : Nat × Nat) (is_in_favor : Bool)
  | DaoCreated (dao_id : Nat)
  | BalanceTransfer (from_acc to_acc : Nat) (amount : Nat)
  | ValueRevealed (account : Nat) (value : Nat)
  deriving DecidableEq, Repr

/-- `DaoInfo` from src/lib.rs. -/
structure DaoInfo where
  owner : Nat
  birth_block : Nat
  next_proposal_id : Nat
  vote_cost : Nat
  deriving DecidableEq, Repr

/-- `ProrposalInfo` from src/lib.rs (source spelling kept). -/
structure ProrposalInfo where
  info : String
  created_at : Nat
  destroy_at : Nat
  votes_in_favour : Map Nat Nat
  votes_against : Map Nat Nat

/-- `RandomNumber` from src/lib.rs. -/
structure RandomNumber where
  masked_values : Map Nat (List Nat)
  revealed_values : Map Nat Nat
  reveal_block_height : Nat

/-- `Default` for `RandomNumber`: empty maps, height 0 (u32 default). -/
def RandomNumber.default : RandomNumber :=
  { masked_values := Map.empty
    revealed_values := Map.empty
    reveal_block_height := 0 }

/-- The `#[ink(storage)]` struct `Dao`. -/
structure Dao where
  owner : Nat
  accounts : Map Nat Nat
  daos : Map Nat DaoInfo
  proposals : Map (Nat × Nat) ProrposalInfo
  next_dao_id : Nat
  random_number : RandomNumber

/-- Result of one message call: the post-state, the returned
`Result<α, ContractError>`, and the events emitted during the call. -/
structure Outcome (α : Type) where
  state : Dao
  result : Except ContractError α
  events : List Event

instance {ε α : Type} [DecidableEq ε] [DecidableEq α] :
    DecidableEq (Except ε α) := fun x y =>
  match x, y with
  | .error e1, .error e2 =>
    if h : e1 = e2 then .isTrue (by rw [h]) else .isFalse (by simp [h])
  | .error _, .ok _ => .isFalse (by simp)
  | .ok _, .error _ => .isFalse (by simp)
  | .ok a1, .ok a2 =>
    if h : a1 = a2 then .isTrue (by rw [h]) else .isFalse (by simp [h])

namespace Dao

/-- `Dao::new(owner)`: the constructor. -/
def new (owner : Nat) : Dao :=
  { owner := owner
    next_dao_id := 1
    accounts := Map.empty
    daos := Map.empty
    proposals := Map.empty
    random_number := RandomNumber.default }

/-- `Dao::get_balance`: stored balance, defaulting to 0. -/
def get_balance (s : Dao) (account_id : Nat) : Nat :=
  (s.accounts.getm account_id).getD 0

/-- `Dao::increase_balance`: unchecked u128 addition, then insert. -/
def increase_balance (s : Dao) (account_id : Nat) (amount : Nat) :
    Dao :=
  { s with accounts :=
      s.accounts.insert account_id (wrapAdd (s.get_balance account_id) amount) }

/-- `Dao::decrease_balance`: unguarded u128 subtraction, then insert.
No sufficiency check of any kind. -/
def decrease_balance (s : Dao) (account_id : Nat) (amount : Nat) :
    Dao :=
  { s with accounts :=
      s.accounts.insert account_id (wrapSub (s.get_balance account_id) amount) }

/-- Big-endian byte encoding of a u64, `u64::to_be_bytes`. -/
def u64BeBytes (v : Nat) : List Nat :=
  [v / 2 ^ 56 % 256, v / 2 ^ 48 % 256, v / 2 ^ 40 % 256, v / 2 ^ 32 % 256,
   v / 2 ^ 24 % 256, v / 2 ^ 16 % 256, v / 2 ^ 8 % 256, v % 256]

/-- `Dao::hash_value`: hash the big-endian bytes of `value` with the host
hash primitive (SHA2-256), abstracted as `hashFn`. -/
def hash_value (hashFn : List Nat → List Nat) (value : Nat) : List Nat :=
  hashFn (u64BeBytes value)

/-- `Dao::transfer(target, amount)`: decrease caller, increase target, emit
`BalanceTransfer`. There is no sufficiency check: it cannot fail. -/
def transfer (s : Dao) (caller : Nat) (target : Nat)
    (amount : Nat) : Outcome Unit :=
  let s1 := s.decrease_balance caller amount
  let s2 := s1.increase_balance target amount
  { state := s2
    result := .ok ()
    events := [.BalanceTransfer caller target amount] }

/-- `Dao::mint(target, amount)`: owner-only balance creation. -/
def mint (s : Dao) (caller : Nat) (target : Nat)
    (amount : Nat) : Outcome Unit :=
  if s.owner = caller then
    { state := s.increase_balance target amount, result := .ok (), events := [] }
  else
    { state := s, result := .error .InsufficientPerimssion, events := [] }

/-- `Dao::create_dao(owner)`: allocate `next_dao_id`, store a `DaoInfo` with
`vote_cost = 2`, bump the counter (u32 wrap), emit `DaoCreated`.
Returns `Ok(())` — the `ContractResult` type carries no id. -/
def create_dao (s : Dao) (current_block : Nat) (owner : Nat) :
    Outcome Unit :=
  let dao_id := s.next_dao_id
  let dao_info : DaoInfo :=
    { owner := owner
      birth_block := current_block
      next_proposal_id := 1
      vote_cost := 2 }
  { state :=
      { s with
        daos := s.daos.insert dao_id dao_info
        next_dao_id := (s.next_dao_id + 1) % U32MOD }
    result := .ok ()
    events := [.DaoCreated dao_id] }

/-- `Dao::create_proposal(dao_id, info)`: fails `NonExistentDao` for an
unknown DAO; otherwise allocates the DAO's next proposal id, stores the
proposal with a 1000-block window, bumps the DAO's counter, emits
`ProposalCreated`, and returns the proposal id. The caller is read but
never used. -/
def create_proposal (s : Dao) (_caller : Nat)
    (current_block : Nat) (dao_id : Nat) (info : String) :
    Outcome Nat :=
  match s.daos.getm dao_id with
  | none => { state := s, result := .error .NonExistentDao, events := [] }
  | some dao =>
    let proposal_id := dao.next_proposal_id
    let proposal_info : ProrposalInfo :=
      { info := info
        created_at := current_block
        destroy_at := (current_block + 1000) % U32MOD
        votes_in_favour := Map.empty
        votes_against := Map.empty }
    let dao2 : DaoInfo :=
      { dao with next_proposal_id := (dao.next_proposal_id + 1) % U32MOD }
    { state :=
        { s with
          proposals := s.proposals.insert (dao_id, proposal_id) proposal_info
          daos := s.daos.insert dao_id dao2 }
      result := .ok proposal_id
      events := [.ProposalCreated dao_id proposal_id] }

/-- `Dao::vote(dao_id, proposal_id, yes)`: checks, in source order —
proposal exists, DAO exists (both `NonExistentDao`), caller's full balance
is at least `vote_cost` (`InsufficientBalance`), window still open
(`VotingClosed`), caller not yet in either side (`VoteAlreadyMade`). On
success records the caller's full balance on the chosen side, deducts
`vote_cost`, and emits `VoteMade`. -/
def vote (s : Dao) (caller : Nat) (current_block : Nat)
    (dao_id : Nat) (proposal_id : Nat) (yes : Bool) : Outcome Unit :=
  match s.proposals.getm (dao_id, proposal_id) with
  | none => { state := s, result := .error .NonExistentDao, events := [] }
  | some proposal =>
    match s.daos.getm dao_id with
    | none => { state := s, result := .error .NonExistentDao, events := [] }
    | some dao =>
      let voting_power := s.get_balance caller
      if ¬ (voting_power ≥ dao.vote_cost) then
        { state := s, result := .error .InsufficientBalance, events := [] }
      else if ¬ (proposal.destroy_at ≥ current_block) then
        { state := s, result := .error .VotingClosed, events := [] }
      else if proposal.votes_in_favour.containsKey caller then
        { state := s, result := .error .VoteAlreadyMade, events := [] }
      else if proposal.votes_against.containsKey caller then
        { state := s, result := .error .VoteAlreadyMade, events := [] }
      else
        let proposal2 : ProrposalInfo :=
          if yes then
            { proposal with votes_in_favour :=
                proposal.votes_in_favour.insert caller voting_power }
          else
            { proposal with votes_against :=
                proposal.votes_against.insert caller voting_power }
        let s1 :=
          { s with proposals :=
              s.proposals.insert (dao_id, proposal_id) proposal2 }
        let s2 := s1.decrease_balance caller dao.vote_cost
        { state := s2
          result := .ok ()
          events := [.VoteMade (dao_id, proposal_id) yes] }

/-- `Dao::balance(account_id)`: read-only query. -/
def balance (s : Dao) (account_id : Nat) : Nat :=
  s.get_balance account_id

/-- `Dao::submit_masked_value(value_hash)`: stores the caller's commitment
verbatim; fails `ValueAlreadySubmitted` if one is already stored. -/
def submit_masked_value (s : Dao) (sender : Nat)
    (value_hash : List Nat) : Outcome Unit :=
  if s.random_number.masked_values.containsKey sender then
    { state := s, result := .error .ValueAlreadySubmitted, events := [] }
  else
    { state :=
        { s with random_number :=
            { s.random_number with masked_values :=
                s.random_number.masked_values.insert sender value_hash } }
      result := .ok ()
      events := [] }

/-- `Dao::reveal_value(value)`: checks, in source order — commitment exists
(`ValueNotSubmitted`), current block at or past `reveal_block_height`
(`InvalidRevealBlock`), recomputed hash equals the stored commitment
byte-for-byte (`InvalidReveal`). On success stores the revealed value and
emits `ValueRevealed`. The commitment is not cleared. -/
def reveal_value (hashFn : List Nat → List Nat) (s : Dao)
    (sender : Nat) (current_block : Nat) (value : Nat) :
    Outcome Unit :=
  match s.random_number.masked_values.getm sender with
  | none => { state := s, result := .error .ValueNotSubmitted, events := [] }
  | some masked_value =>
    if ¬ (current_block ≥ s.random_number.reveal_block_height) then
      { state := s, result := .error .InvalidRevealBlock, events := [] }
    else if ¬ (hash_value hashFn value = masked_value) then
      { state := s, result := .error .InvalidReveal, events := [] }
    else
      { state :=
          { s with random_number :=
              { s.random_number with revealed_values :=
                  s.random_number.revealed_values.insert sender value } }
        result := .ok ()
        events := [.ValueRevealed sender value] }

/-- `Dao::set_reveal_block_height(block_height)`: owner-only overwrite of
the global reveal threshold, with no further validation. -/
def set_reveal_block_height (s : Dao) (sender : Nat)
    (block_height : Nat) : Outcome Unit :=
  if sender = s.owner then
    { state :=
        { s with random_number :=
            { s.random_number with reveal_block_height := block_height } }
      result := .ok ()
      events := [] }
  else
    { state := s, result := .error .InsufficientPerimssion, events := [] }

end Dao

/-- One public (state-changing) message call with its host-supplied ambient
inputs (caller, current block) made explicit. -/
inductive Op
  | transfer (caller target : Nat) (amount : Nat)
  | mint (caller target : Nat) (amount : Nat)
  | create_dao (current_block : Nat) (owner : Nat)
  | create_proposal (caller : Nat) (current_block : Nat)
      (dao_id : Nat) (info : String)
  | vote (caller : Nat) (current_block : Nat) (dao_id : Nat)
      (proposal_id : Nat) (yes : Bool)
  | submit_masked_value (sender : Nat) (value_hash : List Nat)
  | reveal_value (sender : Nat) (current_block : Nat)
      (value : Nat)
  | set_reveal_block_height (sender : Nat) (block_height : Nat)
  deriving DecidableEq

/-- Return value of an `Op`, unifying the two return types of the surface. -/
inductive RetVal
  | unit
  | proposalId (id : Nat)
  deriving DecidableEq, Repr

/-- Coerce a message's typed result into the unified `RetVal`. -/
def toRet {α : Type} (f : α → RetVal) : Except ContractError α →
    Except ContractError RetVal
  | .ok a => .ok (f a)
  | .error e => .error e

/-- Run one message call against a state; the hash primitive is a
parameter (only `reveal_value` consults it). -/
def Dao.applyOp (hashFn : List Nat → List Nat) (s : Dao) :
    Op → Dao × Except ContractError RetVal
  | .transfer caller target amount =>
    let o := s.transfer caller target amount
    (o.state, toRet (fun _ => .unit) o.result)
  | .mint caller target amount =>
    let o := s.mint caller target amount
    (o.state, toRet (fun _ => .unit) o.result)
  | .create_dao current_block owner =>
    let o := s.create_dao current_block owner
    (o.state, toRet (fun _ => .unit) o.result)
  | .create_proposal caller current_block dao_id info =>
    let o := s.create_proposal caller current_block dao_id info
    (o.state, toRet (fun id => .proposalId id) o.result)
  | .vote caller current_block dao_id proposal_id yes =>
    let o := s.vote caller current_block dao_id proposal_id yes
    (o.state, toRet (fun _ => .unit) o.result)
  | .submit_masked_value sender value_hash =>
    let o := s.submit_masked_value sender value_hash
    (o.state, toRet (fun _ => .unit) o.result)
  | .reveal_value sender current_block value =>
    let o := Dao.reveal_value hashFn s sender current_block value
    (o.state, toRet (fun _ => .unit) o.result)
  | .set_reveal_block_height sender block_height =>
    let o := s.set_reveal_block_height sender block_height
    (o.state, toRet (fun _ => .unit) o.result)

/-- `k` consecutive `create_dao` calls (fixed block and owner arguments —
neither influences id allocation). -/
def createDaoIter (b : Nat) (w : Nat) : Nat → Dao → Dao
  | 0, s => s
  | k + 1, s => createDaoIter b w k (s.create_dao b w).state

/-- `k` consecutive `create_proposal` calls on one DAO. -/
def createProposalIter (c : Nat) (b : Nat) (d : Nat)
    (i : String) : Nat → Dao → Dao
  | 0, s => s
  | k + 1, s => createProposalIter c b d i k (s.create_proposal c b d i).state

/-- Invariant 3 of the spec: no account ever sits in both the favour and
the against mapping of one proposal. -/
def NoDoubleVote (s : Dao) : Prop :=
  ∀ key q a, s.proposals.getm key = some q →
    ¬ ((q.votes_in_favour.getm a).isSome ∧ (q.votes_against.getm a).isSome)

/-- The spec's §8 scenario state: the owner (account 0) mints 10 to Alice
(account 1), account 7 gets DAO 1 (`vote_cost = 2`), and proposal 1 is
created in it at block 0. -/
def voteScenarioState : Dao :=
  ((((Dao.new 0).mint 0 1 10).state.create_dao 0 7).state.create_proposal
    7 0 1 "p").state

/-- The proposal stored at `(1, 1)` in `voteScenarioState`. -/
def voteScenarioProposal : ProrposalInfo :=
  { info := "p"
    created_at := 0
    destroy_at := (0 + 1000) % U32MOD
    votes_in_favour := Map.empty
    votes_against := Map.empty }

/-- A state in which Alice (account 1) was minted exactly `vote_cost = 2`,
DAO 1 / proposal 1 exist, and Alice has already voted in favour —
spending her entire balance on the vote cost. -/
def alreadyVotedState : Dao :=
  (((((Dao.new 0).mint 0 1 2).state.create_dao 0 7).state.create_proposal
    7 0 1 "p").state.vote 1 0 1 1 true).state

/-- Commit-reveal scenario: the owner sets `reveal_block_height = 5` on a
fresh contract. -/
def commitScenarioBase : Dao := ((Dao.new 0).set_reveal_block_height 0 5).state

/-- Account 1 then commits the digest of value 5 (with the identity
function standing in for the hash primitive). -/
def commitScenarioState : Dao :=
  (commitScenarioBase.submit_masked_value 1
    (Dao.hash_value (fun l => l) 5)).state

/-- The commit-reveal scenario after account 1's first successful reveal
of value 5 at block 7. -/
def revealedOnceState : Dao :=
  (Dao.reveal_value (fun l => l) commitScenarioState 1 7 5).state

/-- The §8 scenario state after Alice's successful vote in favour of
proposal 1 (her balance is 8). -/
def votedScenarioState : Dao := (voteScenarioState.vote 1 0 1 1 true).state

/-- The proposal stored at `(1, 1)` in `votedScenarioState`: Alice's full
balance 10 is recorded in favour. -/
def votedScenarioProposal : ProrposalInfo :=
  { info := "p"
    created_at := 0
    destroy_at := (0 + 1000) % U32MOD
    votes_in_favour := Map.empty.insert 1 10
    votes_against := Map.empty }

@[simp] theorem toRet_ok {α : Type} (f : α → RetVal) (a : α) :
    toRet f (.ok a) = .ok (f a) := rfl

@[simp] theorem toRet_error {α : Type} (f : α → RetVal)
    (e : ContractError) : toRet f (.error e) = .error e := rfl

@[simp] theorem Map.getm_empty {K V : Type} (k : K) :
    (Map.empty : Map K V).getm k = none := rfl

@[simp] theorem Map.getm_insert_self {K V : Type} [DecidableEq K]
    (m : Map K V) (k : K) (v : V) : (m.insert k v).getm k = some v := by
  simp [Map.insert, Map.getm]

theorem Map.getm_insert_ne {K V : Type} [DecidableEq K]
    (m : Map K V) (k k2 : K) (v : V) (h : k2 ≠ k) :
    (m.insert k v).getm k2 = m.getm k2 := by
  simp [Map.insert, Map.getm, h]

theorem Map.getm_insert {K V : Type} [DecidableEq K]
    (m : Map K V) (k k2 : K) (v : V) :
    (m.insert k v).getm k2 = if k2 = k then some v else m.getm k2 := rfl

@[simp] theorem Map.containsKey_iff {K V : Type} [DecidableEq K]
    (m : Map K V) (k : K) : m.containsKey k = (m.getm k).isSome := rfl

end DaoContract

namespace DaoContract

/-- C1: `transfer(caller, target, amount)` performs no balance-sufficiency
check: it always returns `Ok`, unconditionally subtracts `amount` from the
caller's balance with the unguarded u128 subtraction of `decrease_balance`
and adds `amount` to the target's balance; when `amount` exceeds the
caller's balance the subtraction wraps around `2^128` instead of
producing an error. -/
theorem transfer_unchecked_wraps (s : Dao) (caller target : Nat)
    (amount : Nat) (_hb : s.get_balance caller < U128MOD)
    (ha : amount < U128MOD) (hne : caller ≠ target) :
    (s.transfer caller target amount).result = .ok () ∧
    (s.transfer caller target amount).state.get_balance caller
      = (s.get_balance caller + U128MOD - amount) % U128MOD ∧
    (s.transfer caller target amount).state.get_balance target
      = (s.get_balance target + amount) % U128MOD ∧
    (s.get_balance caller < amount →
      (s.transfer caller target amount).state.get_balance caller
        = s.get_balance caller + (U128MOD - amount)) := by
  have hmod : amount % U128MOD = amount := Nat.mod_eq_of_lt ha
  refine ⟨rfl, ?_, ?_, ?_⟩
  · simp [Dao.transfer, Dao.increase_balance, Dao.decrease_balance,
      Dao.get_balance, wrapSub, hmod, Map.getm_insert_ne _ _ _ _ hne,
      Map.getm_insert_self]
  · simp [Dao.transfer, Dao.increase_balance, Dao.decrease_balance,
      Dao.get_balance, wrapAdd, Map.getm_insert_ne _ _ _ _ (Ne.symm hne),
      Map.getm_insert_self]
  · intro hlt
    have h1 : (s.transfer caller target amount).state.get_balance caller
        = (s.get_balance caller + U128MOD - amount) % U128MOD := by
      simp [Dao.transfer, Dao.increase_balance, Dao.decrease_balance,
        Dao.get_balance, wrapSub, hmod, Map.getm_insert_ne _ _ _ _ hne,
        Map.getm_insert_self]
    have h2 : s.get_balance caller + U128MOD - amount < U128MOD := by omega
    rw [h1, Nat.mod_eq_of_lt h2]
    omega

/-- C1 witness: Alice (account 1) holds 5 and transfers 9 to Bob
(account 2): the call succeeds and her balance wraps to `2^128 - 4`. -/
theorem transfer_unchecked_wraps_witness :
    (((Dao.new 0).mint 0 1 5).state.get_balance 1 < U128MOD ∧
      (9 : Nat) < U128MOD ∧ (1 : Nat) ≠ 2) ∧
    ((((Dao.new 0).mint 0 1 5).state.transfer 1 2 9).result = .ok () ∧
      (((Dao.new 0).mint 0 1 5).state.transfer 1 2 9).state.get_balance 1
        = (((Dao.new 0).mint 0 1 5).state.get_balance 1 + U128MOD - 9)
            % U128MOD ∧
      (((Dao.new 0).mint 0 1 5).state.transfer 1 2 9).state.get_balance 2
        = (((Dao.new 0).mint 0 1 5).state.get_balance 2 + 9) % U128MOD ∧
      (((Dao.new 0).mint 0 1 5).state.get_balance 1 < 9 →
        (((Dao.new 0).mint 0 1 5).state.transfer 1 2 9).state.get_balance 1
          = ((Dao.new 0).mint 0 1 5).state.get_balance 1 + (U128MOD - 9))) :=
  ⟨⟨by decide, by decide, by decide⟩,
    transfer_unchecked_wraps _ 1 2 9 (by decide) (by decide) (by decide)⟩

/-- C3: on every successful `vote(dao_id, proposal_id, in_favor)` the
caller's voting power is their full current balance: that balance is
recorded as the caller's entry in `votes_in_favour` or `votes_against`
according to `in_favor`, exactly `vote_cost` (not the full voting power)
is deducted from the caller's balance, and a `VoteMade` notification
carrying `((dao_id, proposal_id), in_favor)` is emitted. -/
theorem vote_full_balance_power_cost_deducted
    (s : Dao) (caller b d p : Nat) (yes : Bool)
    (proposal : ProrposalInfo) (dao : DaoInfo)
    (hp : s.proposals.getm (d, p) = some proposal)
    (hd : s.daos.getm d = some dao)
    (hbal : s.get_balance caller ≥ dao.vote_cost)
    (hopen : proposal.destroy_at ≥ b)
    (hf : proposal.votes_in_favour.getm caller = none)
    (hg : proposal.votes_against.getm caller = none)
    (hlt : s.get_balance caller < U128MOD) :
    (s.vote caller b d p yes).result = .ok () ∧
    ((s.vote caller b d p yes).state.proposals.getm (d, p)).bind
        (fun q =>
          (if yes then q.votes_in_favour else q.votes_against).getm caller)
      = some (s.get_balance caller) ∧
    (s.vote caller b d p yes).state.get_balance caller
      = s.get_balance caller - dao.vote_cost ∧
    (s.vote caller b d p yes).events = [.VoteMade (d, p) yes] := by
  have hsub : wrapSub ((s.accounts.getm caller).getD 0) dao.vote_cost
      = (s.accounts.getm caller).getD 0 - dao.vote_cost := by
    have hb2 : (s.accounts.getm caller).getD 0 < U128MOD := hlt
    have hb3 : dao.vote_cost ≤ (s.accounts.getm caller).getD 0 := hbal
    have hc : dao.vote_cost % U128MOD = dao.vote_cost :=
      Nat.mod_eq_of_lt (by omega)
    have he : (s.accounts.getm caller).getD 0 + U128MOD
          - dao.vote_cost % U128MOD
        = ((s.accounts.getm caller).getD 0 - dao.vote_cost) + U128MOD := by
      rw [hc]; omega
    rw [wrapSub, he, Nat.add_mod_right, Nat.mod_eq_of_lt (by omega)]
  have hnl : ¬ ((s.accounts.getm caller).getD 0 < dao.vote_cost) :=
    not_lt.mpr hbal
  have hno : ¬ (proposal.destroy_at < b) := not_lt.mpr hopen
  cases yes <;>
    simp [Dao.vote, hp, hd, hnl, hno, hf, hg, Dao.decrease_balance,
      Dao.get_balance, Dao.increase_balance, hsub]

/-- C3 witness: owner mints 10 to Alice (account 1), creates DAO 1 and
proposal 1; Alice votes in favour at block 0 — the vote succeeds, records
her full balance 10 in `votes_in_favour`, leaves her balance at 8, and
emits the `VoteMade` event. -/
theorem vote_full_balance_power_cost_deducted_witness :
    ((voteScenarioState.proposals.getm (1, 1)).map
        (fun q => q.destroy_at) = some 1000 ∧
      voteScenarioState.get_balance 1 = 10) ∧
    ((voteScenarioState.vote 1 0 1 1 true).result = .ok () ∧
      ((voteScenarioState.vote 1 0 1 1 true).state.proposals.getm
          (1, 1)).bind (fun q => q.votes_in_favour.getm 1)
        = some 10 ∧
      (voteScenarioState.vote 1 0 1 1 true).state.get_balance 1 = 8 ∧
      (voteScenarioState.vote 1 0 1 1 true).events
        = [.VoteMade (1, 1) true]) := by
  have h := vote_full_balance_power_cost_deducted voteScenarioState 1 0 1 1
    true voteScenarioProposal
    { owner := 7, birth_block := 0, next_proposal_id := 2, vote_cost := 2 }
    rfl rfl (by decide) (by decide) rfl rfl (by decide)
  exact ⟨⟨rfl, rfl⟩, h.1, by simpa using h.2.1, h.2.2.1, h.2.2.2⟩

/-- C5: every proposal is stored with `destroy_at = created_at + 1000`
(fixed window), and — for a caller passing all other checks — `vote`
succeeds when called at `current_block = destroy_at` and fails with
`VotingClosed` at `current_block = destroy_at + 1`; closure is derived by
comparing `destroy_at` with the current block, with no stored status. -/
theorem proposal_window_thousand_blocks
    (s : Dao) (c b d p caller : Nat) (i : String) (yes : Bool)
    (dao : DaoInfo) (proposal : ProrposalInfo)
    (hd : s.daos.getm d = some dao) (hof : b + 1000 < U32MOD)
    (hp : s.proposals.getm (d, p) = some proposal)
    (hbal : s.get_balance caller ≥ dao.vote_cost)
    (hf : proposal.votes_in_favour.getm caller = none)
    (hg : proposal.votes_against.getm caller = none) :
    ((s.create_proposal c b d i).state.proposals.getm
        (d, dao.next_proposal_id)).map
      (fun q => (q.created_at, q.destroy_at)) = some (b, b + 1000) ∧
    (s.vote caller proposal.destroy_at d p yes).result = .ok () ∧
    (s.vote caller (proposal.destroy_at + 1) d p yes).result
      = .error .VotingClosed := by
  have hnl : ¬ (s.get_balance caller < dao.vote_cost) := not_lt.mpr hbal
  refine ⟨?_, ?_, ?_⟩
  · simp [Dao.create_proposal, hd, Nat.mod_eq_of_lt hof]
  · cases yes <;>
      simp [Dao.vote, hp, hd, hnl, hf, hg]
  · simp [Dao.vote, hp, hd, hnl]

/-- C5 witness: in the §8 scenario state, creating another proposal at
block 5 stores the window `(5, 1005)`; Alice's vote on proposal 1
(window end 1000) succeeds at block 1000 and fails with `VotingClosed`
at block 1001. -/
theorem proposal_window_thousand_blocks_witness :
    (voteScenarioState.daos.getm 1
        = some { owner := 7, birth_block := 0, next_proposal_id := 2,
                 vote_cost := 2 } ∧
      5 + 1000 < U32MOD ∧
      voteScenarioState.proposals.getm (1, 1)
        = some voteScenarioProposal ∧
      voteScenarioState.get_balance 1
        ≥ (2 : Nat) ∧
      voteScenarioProposal.destroy_at = 1000) ∧
    (((voteScenarioState.create_proposal 9 5 1 "q").state.proposals.getm
        (1, 2)).map (fun q => (q.created_at, q.destroy_at))
      = some (5, 5 + 1000) ∧
      (voteScenarioState.vote 1 voteScenarioProposal.destroy_at
          1 1 true).result = .ok () ∧
      (voteScenarioState.vote 1 (voteScenarioProposal.destroy_at + 1)
          1 1 true).result = .error .VotingClosed) := by
  have h := proposal_window_thousand_blocks voteScenarioState 9 5 1 1 1 "q"
    true { owner := 7, birth_block := 0, next_proposal_id := 2,
           vote_cost := 2 }
    voteScenarioProposal rfl (by decide) rfl (by decide) rfl rfl
  exact ⟨⟨rfl, by decide, rfl, by decide, by decide⟩, h.1, h.2.1, h.2.2⟩

/-- Helper: the no-double-vote invariant only reads `proposals`, so any
operation that leaves `proposals` untouched preserves it. -/
theorem noDoubleVote_of_proposals_eq (s s2 : Dao)
    (h : s2.proposals = s.proposals) (hs : NoDoubleVote s) :
    NoDoubleVote s2 := by
  intro key q a hk
  exact hs key q a (h ▸ hk)

/-- C4 counterexample: a second `vote` call after a recorded vote does
NOT always fail with `VoteAlreadyMade`. Alice voted on proposal 1 with a
balance of exactly 2 = `vote_cost`; her balance is now 0, so her second
vote call (changing sides) fails with `InsufficientBalance` — the balance
check runs before the already-voted check. -/
theorem second_vote_other_error_counterexample :
    (alreadyVotedState.proposals.getm (1, 1)).map
        (fun q => (q.votes_in_favour.getm 1).isSome) = some true ∧
    (alreadyVotedState.vote 1 0 1 1 false).result
        = .error .InsufficientBalance ∧
    (alreadyVotedState.vote 1 0 1 1 false).result
        ≠ .error .VoteAlreadyMade := by
  refine ⟨by decide, by decide, by decide⟩

/-- C4 (amended): once an account appears in either side of a proposal,
no later `vote` call by that account for the same pair can succeed; if
such a call passes the existence, balance and voting-window checks it
fails with `VoteAlreadyMade` regardless of the side chosen (otherwise it
fails with the error of the earlier check); and the at-most-one-side
invariant is preserved by every operation from every state satisfying
it. -/
theorem vote_at_most_once_per_proposal :
    (∀ (s : Dao) (caller b d p : Nat) (yes : Bool) (q : ProrposalInfo),
      s.proposals.getm (d, p) = some q →
      ((q.votes_in_favour.getm caller).isSome = true ∨
        (q.votes_against.getm caller).isSome = true) →
      (s.vote caller b d p yes).result ≠ .ok ()) ∧
    (∀ (s : Dao) (caller b d p : Nat) (yes : Bool) (q : ProrposalInfo)
      (dao : DaoInfo),
      s.proposals.getm (d, p) = some q →
      s.daos.getm d = some dao →
      s.get_balance caller ≥ dao.vote_cost →
      q.destroy_at ≥ b →
      ((q.votes_in_favour.getm caller).isSome = true ∨
        (q.votes_against.getm caller).isSome = true) →
      (s.vote caller b d p yes).result = .error .VoteAlreadyMade) ∧
    (∀ (hashFn : List Nat → List Nat) (s : Dao) (op : Op),
      NoDoubleVote s → NoDoubleVote (s.applyOp hashFn op).1) := by
  refine ⟨?_, ?_, ?_⟩
  · intro s caller b d p yes q hp hv
    simp only [Dao.vote, hp]
    cases hdao : s.daos.getm d
    · simp
    · repeat' split
      all_goals simp_all [Map.containsKey_iff]
  · intro s caller b d p yes q dao hp hd hbal hopen hv
    have hnl : ¬ (s.get_balance caller < dao.vote_cost) := not_lt.mpr hbal
    have hno : ¬ (q.destroy_at < b) := not_lt.mpr hopen
    by_cases hfa : (q.votes_in_favour.getm caller).isSome = true
    · simp [Dao.vote, hp, hd, hnl, hno, hfa]
    · have hag : (q.votes_against.getm caller).isSome = true := by
        rcases hv with h | h
        · exact absurd h hfa
        · exact h
      simp [Dao.vote, hp, hd, hnl, hno, hfa, hag]
  · intro hashFn s op hs
    cases op with
    | transfer c t a =>
      exact noDoubleVote_of_proposals_eq s _ rfl hs
    | mint c t a =>
      refine noDoubleVote_of_proposals_eq s _ ?_ hs
      simp only [Dao.applyOp, Dao.mint]
      split <;> rfl
    | create_dao b w =>
      exact noDoubleVote_of_proposals_eq s _ rfl hs
    | create_proposal c b d i =>
      simp only [Dao.applyOp, Dao.create_proposal]
      cases hdao : s.daos.getm d with
      | none => exact hs
      | some dao =>
        intro key q a hk
        simp only at hk
        by_cases hkey : key = (d, dao.next_proposal_id)
        · subst hkey
          rw [Map.getm_insert_self] at hk
          cases hk
          simp
        · rw [Map.getm_insert_ne _ _ _ _ hkey] at hk
          exact hs key q a hk
    | vote c b d p yes =>
      rcases hprop : s.proposals.getm (d, p) with _ | proposal
      · have hst : (s.applyOp hashFn (.vote c b d p yes)).1 = s := by
          simp [Dao.applyOp, Dao.vote, hprop]
        rw [hst]; exact hs
      rcases hdao : s.daos.getm d with _ | dao
      · have hst : (s.applyOp hashFn (.vote c b d p yes)).1 = s := by
          simp [Dao.applyOp, Dao.vote, hprop, hdao]
        rw [hst]; exact hs
      by_cases h1 : s.get_balance c < dao.vote_cost
      · have hst : (s.applyOp hashFn (.vote c b d p yes)).1 = s := by
          simp [Dao.applyOp, Dao.vote, hprop, hdao, h1]
        rw [hst]; exact hs
      by_cases h2 : proposal.destroy_at < b
      · have hst : (s.applyOp hashFn (.vote c b d p yes)).1 = s := by
          simp [Dao.applyOp, Dao.vote, hprop, hdao, h1, h2]
        rw [hst]; exact hs
      by_cases h3 : (proposal.votes_in_favour.getm c).isSome = true
      · have hst : (s.applyOp hashFn (.vote c b d p yes)).1 = s := by
          simp [Dao.applyOp, Dao.vote, hprop, hdao, h1, h2,
            Map.containsKey_iff, h3]
        rw [hst]; exact hs
      by_cases h4 : (proposal.votes_against.getm c).isSome = true
      · have hst : (s.applyOp hashFn (.vote c b d p yes)).1 = s := by
          simp [Dao.applyOp, Dao.vote, hprop, hdao, h1, h2,
            Map.containsKey_iff, h3, h4]
        rw [hst]; exact hs
      have hprops : (s.applyOp hashFn (.vote c b d p yes)).1.proposals
          = s.proposals.insert (d, p)
            (if yes then
              { proposal with votes_in_favour :=
                  proposal.votes_in_favour.insert c (s.get_balance c) }
            else
              { proposal with votes_against :=
                  proposal.votes_against.insert c (s.get_balance c) }) := by
        cases yes <;>
          simp [Dao.applyOp, Dao.vote, hprop, hdao, h1, h2,
            Map.containsKey_iff, h3, h4, Dao.decrease_balance]
      intro key q a hk
      rw [hprops] at hk
      by_cases hkey : key = (d, p)
      · subst hkey
        rw [Map.getm_insert_self] at hk
        cases hk
        by_cases hac : a = c
        · subst hac
          cases yes <;> simp_all [Map.getm_insert_self]
        · have hne : a ≠ c := hac
          have hrest := hs (d, p) proposal a hprop
          cases yes <;>
            simpa [Map.getm_insert_ne _ _ _ _ hne] using hrest
      · rw [Map.getm_insert_ne _ _ _ _ hkey] at hk
        exact hs key q a hk
    | submit_masked_value a vh =>
      refine noDoubleVote_of_proposals_eq s _ ?_ hs
      simp only [Dao.applyOp, Dao.submit_masked_value]
      split <;> rfl
    | reveal_value a b v =>
      refine noDoubleVote_of_proposals_eq s _ ?_ hs
      simp only [Dao.applyOp, Dao.reveal_value]
      split
      · rfl
      · split
        · rfl
        · split <;> rfl
    | set_reveal_block_height a h =>
      refine noDoubleVote_of_proposals_eq s _ ?_ hs
      simp only [Dao.applyOp, Dao.set_reveal_block_height]
      split <;> rfl

/-- C4 witness: in the §8 scenario state, where Alice already voted in
favour of proposal 1, her repeated vote (against) cannot succeed, and —
since she holds 8 ≥ `vote_cost` and the window is open — it fails
precisely with `VoteAlreadyMade`; the invariant holds of that state and
is preserved by one more operation. -/
theorem vote_at_most_once_per_proposal_witness :
    ((votedScenarioState.proposals.getm (1, 1)).map
        (fun q => (q.votes_in_favour.getm 1).isSome) = some true ∧
      votedScenarioState.get_balance 1 = 8) ∧
    (votedScenarioState.vote 1 0 1 1 false).result ≠ .ok () ∧
    (votedScenarioState.vote 1 0 1 1 false).result
        = .error .VoteAlreadyMade ∧
    NoDoubleVote
      ((Dao.new 0).applyOp (fun l => l) (.create_dao 0 7)).1 := by
  have hprop : votedScenarioState.proposals.getm (1, 1)
      = some votedScenarioProposal := by rfl
  have hv : (votedScenarioProposal.votes_in_favour.getm 1).isSome = true ∨
      (votedScenarioProposal.votes_against.getm 1).isSome = true :=
    .inl (by decide)
  have hinv : NoDoubleVote (Dao.new 0) := by
    intro key q a hk
    cases hk
  refine ⟨⟨by decide, by decide⟩,
    vote_at_most_once_per_proposal.1 votedScenarioState 1 0 1 1 false
      votedScenarioProposal hprop hv,
    vote_at_most_once_per_proposal.2.1 votedScenarioState 1 0 1 1 false
      votedScenarioProposal
      { owner := 7, birth_block := 0, next_proposal_id := 2, vote_cost := 2 }
      hprop (by decide) (by decide) (by decide) hv,
    vote_at_most_once_per_proposal.2.2 (fun l => l) (Dao.new 0)
      (.create_dao 0 7) hinv⟩

/-- C6 counterexample: a successful reveal is NOT "exactly once". After
account 1's commitment of `H(5)` and a first successful `reveal_value(5)`
at block 7 (past the reveal height 5), calling `reveal_value(5)` again
succeeds a second time — the commitment is never cleared and no
already-revealed check exists. -/
theorem reveal_not_exactly_once_counterexample :
    (Dao.reveal_value (fun l => l) commitScenarioState 1 7 5).result
        = .ok () ∧
    (Dao.reveal_value (fun l => l) revealedOnceState 1 7 5).result
        = .ok () :=
  ⟨by decide, by decide⟩

/-- C6 (amended): commit-reveal round-trip — submitting commitment `H(v)`
(the hash of the big-endian byte encoding of `v`) succeeds and stores it;
then `reveal_value(v)` at a block at or after `reveal_block_height`
succeeds, storing `v` and emitting `ValueRevealed`; revealing any `v2`
with `H(v2) ≠` the stored commitment fails with `InvalidReveal`;
revealing before `reveal_block_height` fails with `InvalidRevealBlock`; a
second `submit_masked_value` from the same account fails with
`ValueAlreadySubmitted`. The reveal is NOT once-only: a repeated
`reveal_value(v)` succeeds again (the commitment is never cleared). -/
theorem commit_reveal_roundtrip
    (hashFn : List Nat → List Nat) (s : Dao) (caller b b2 v v2 : Nat)
    (vh2 : List Nat)
    (hnone : s.random_number.masked_values.getm caller = none) :
    (s.submit_masked_value caller (Dao.hash_value hashFn v)).result
      = .ok () ∧
    (s.submit_masked_value caller
        (Dao.hash_value hashFn v)).state.random_number.masked_values.getm
        caller = some (Dao.hash_value hashFn v) ∧
    (b ≥ s.random_number.reveal_block_height →
      ((Dao.reveal_value hashFn
          (s.submit_masked_value caller (Dao.hash_value hashFn v)).state
          caller b v).result = .ok () ∧
        (Dao.reveal_value hashFn
          (s.submit_masked_value caller (Dao.hash_value hashFn v)).state
          caller b v).state.random_number.revealed_values.getm caller
          = some v ∧
        (Dao.reveal_value hashFn
          (s.submit_masked_value caller (Dao.hash_value hashFn v)).state
          caller b v).events = [.ValueRevealed caller v])) ∧
    (Dao.hash_value hashFn v2 ≠ Dao.hash_value hashFn v →
      b ≥ s.random_number.reveal_block_height →
      (Dao.reveal_value hashFn
        (s.submit_masked_value caller (Dao.hash_value hashFn v)).state
        caller b v2).result = .error .InvalidReveal) ∧
    (b2 < s.random_number.reveal_block_height →
      (Dao.reveal_value hashFn
        (s.submit_masked_value caller (Dao.hash_value hashFn v)).state
        caller b2 v).result = .error .InvalidRevealBlock) ∧
    ((s.submit_masked_value caller
        (Dao.hash_value hashFn v)).state.submit_masked_value caller
        vh2).result = .error .ValueAlreadySubmitted ∧
    (b ≥ s.random_number.reveal_block_height →
      (Dao.reveal_value hashFn
        (Dao.reveal_value hashFn
          (s.submit_masked_value caller (Dao.hash_value hashFn v)).state
          caller b v).state caller b v).result = .ok ()) := by
  refine ⟨?_, ?_, ?_, ?_, ?_, ?_, ?_⟩
  · simp [Dao.submit_masked_value, Map.containsKey_iff, hnone]
  · simp [Dao.submit_masked_value, Map.containsKey_iff, hnone]
  · intro hb
    have hnb := not_lt.mpr hb
    simp [Dao.reveal_value, Dao.submit_masked_value, Map.containsKey_iff,
      hnone, hnb]
  · intro hne hb
    have hnb := not_lt.mpr hb
    simp [Dao.reveal_value, Dao.submit_masked_value, Map.containsKey_iff,
      hnone, hnb, hne]
  · intro hlow
    simp [Dao.reveal_value, Dao.submit_masked_value, Map.containsKey_iff,
      hnone, hlow]
  · simp [Dao.submit_masked_value, Map.containsKey_iff, hnone]
  · intro hb
    have hnb := not_lt.mpr hb
    simp [Dao.reveal_value, Dao.submit_masked_value, Map.containsKey_iff,
      hnone, hnb]

/-- C6 witness: on a fresh contract with reveal height 5, account 1
commits the digest of 5, reveals it at block 7, cannot reveal 6, cannot
reveal at block 3, cannot resubmit, and can reveal 5 again. -/
theorem commit_reveal_roundtrip_witness :
    (commitScenarioBase.random_number.masked_values.getm 1 = none ∧
      (7 : Nat) ≥ commitScenarioBase.random_number.reveal_block_height ∧
      (3 : Nat) < commitScenarioBase.random_number.reveal_block_height ∧
      Dao.hash_value (fun l => l) 6 ≠ Dao.hash_value (fun l => l) 5) ∧
    ((commitScenarioBase.submit_masked_value 1
        (Dao.hash_value (fun l => l) 5)).result = .ok () ∧
      commitScenarioState.random_number.masked_values.getm 1
        = some (Dao.hash_value (fun l => l) 5) ∧
      (Dao.reveal_value (fun l => l) commitScenarioState 1 7 5).result
        = .ok () ∧
      revealedOnceState.random_number.revealed_values.getm 1 = some 5 ∧
      (Dao.reveal_value (fun l => l) commitScenarioState 1 7 6).result
        = .error .InvalidReveal ∧
      (Dao.reveal_value (fun l => l) commitScenarioState 1 3 5).result
        = .error .InvalidRevealBlock ∧
      (commitScenarioState.submit_masked_value 1 [9]).result
        = .error .ValueAlreadySubmitted ∧
      (Dao.reveal_value (fun l => l) revealedOnceState 1 7 5).result
        = .ok ()) := by
  have h := commit_reveal_roundtrip (fun l => l) commitScenarioBase 1 7 3 5 6
    [9] (by decide)
  exact ⟨⟨by decide, by decide, by decide, by decide⟩,
    h.1, h.2.1, (h.2.2.1 (by decide)).1, (h.2.2.1 (by decide)).2.1,
    h.2.2.2.1 (by decide) (by decide), h.2.2.2.2.1 (by decide),
    h.2.2.2.2.2.1, h.2.2.2.2.2.2 (by decide)⟩

/-- Helper: `k` consecutive `create_dao` calls advance `next_dao_id` by
exactly `k` (below the u32 wrap point). -/
theorem createDaoIter_next_dao_id (b w : Nat) : ∀ (k : Nat) (s : Dao),
    s.next_dao_id + k < U32MOD →
    (createDaoIter b w k s).next_dao_id = s.next_dao_id + k := by
  intro k
  induction k with
  | zero => intro s h; simp [createDaoIter]
  | succ n ih =>
    intro s h
    have h1 : (s.create_dao b w).state.next_dao_id = s.next_dao_id + 1 := by
      simp [Dao.create_dao]
      exact Nat.mod_eq_of_lt (by omega)
    have h2 : (s.create_dao b w).state.next_dao_id + n < U32MOD := by
      rw [h1]; omega
    have h3 := ih (s.create_dao b w).state h2
    rw [h1] at h3
    show (createDaoIter b w n (s.create_dao b w).state).next_dao_id = _
    rw [h3]; omega

/-- Helper: `k` consecutive `create_proposal` calls on DAO `d` advance
its stored `next_proposal_id` by exactly `k` and change nothing else in
its `DaoInfo` (below the u32 wrap point). -/
theorem createProposalIter_daos (c b d : Nat) (i : String) :
    ∀ (k : Nat) (s : Dao) (dao : DaoInfo), s.daos.getm d = some dao →
    dao.next_proposal_id + k < U32MOD →
    (createProposalIter c b d i k s).daos.getm d
      = some { dao with next_proposal_id := dao.next_proposal_id + k } := by
  intro k
  induction k with
  | zero =>
    intro s dao hd h
    simpa [createProposalIter] using hd
  | succ n ih =>
    intro s dao hd h
    have hmod : (dao.next_proposal_id + 1) % U32MOD
        = dao.next_proposal_id + 1 := Nat.mod_eq_of_lt (by omega)
    have h1 : (s.create_proposal c b d i).state.daos.getm d
        = some { dao with
                 next_proposal_id := dao.next_proposal_id + 1 } := by
      simp [Dao.create_proposal, hd, hmod]
    have h2 : ({ dao with next_proposal_id := dao.next_proposal_id + 1 }
        : DaoInfo).next_proposal_id + n < U32MOD := by
      simp; omega
    have h3 := ih (s.create_proposal c b d i).state _ h1 h2
    show (createProposalIter c b d i n
        (s.create_proposal c b d i).state).daos.getm d = _
    rw [h3]
    have harr : dao.next_proposal_id + 1 + n
        = dao.next_proposal_id + (n + 1) := by omega
    simp [harr]

/-- C7: ids are sequential and unreused — the `(k+1)`-th consecutive
`create_dao` call from a fresh contract allocates DAO id `k+1` (so `N`
calls allocate `1..N`, strictly increasing); the `(k+1)`-th consecutive
`create_proposal` call on a DAO whose counter starts at 1 returns
proposal id `k+1`, and a `create_proposal` on one DAO leaves every other
DAO's record untouched; `next_dao_id` never decreases under any
operation, and an existing DAO's `next_proposal_id` never decreases
under any operation (both below the u32 wrap point, given the reachable
fact that no DAO is stored at the unallocated id `next_dao_id`). -/
theorem sequential_unique_ids :
    (∀ (o b w k : Nat), k + 1 < U32MOD →
      ((createDaoIter b w k (Dao.new o)).create_dao b w).events
        = [.DaoCreated (k + 1)]) ∧
    (∀ (s : Dao) (c b d : Nat) (i : String) (k : Nat) (dao : DaoInfo),
      s.daos.getm d = some dao → dao.next_proposal_id = 1 →
      k + 1 < U32MOD →
      ((createProposalIter c b d i k s).create_proposal c b d i).result
        = .ok (k + 1)) ∧
    (∀ (s : Dao) (c b d d2 : Nat) (i : String), d2 ≠ d →
      (s.create_proposal c b d i).state.daos.getm d2 = s.daos.getm d2) ∧
    (∀ (hashFn : List Nat → List Nat) (s : Dao) (op : Op),
      s.next_dao_id + 1 < U32MOD →
      s.next_dao_id ≤ (s.applyOp hashFn op).1.next_dao_id) ∧
    (∀ (hashFn : List Nat → List Nat) (s : Dao) (op : Op) (d : Nat)
      (dao dao2 : DaoInfo),
      s.daos.getm d = some dao →
      s.daos.getm s.next_dao_id = none →
      dao.next_proposal_id + 1 < U32MOD →
      (s.applyOp hashFn op).1.daos.getm d = some dao2 →
      dao.next_proposal_id ≤ dao2.next_proposal_id) := by
  refine ⟨?_, ?_, ?_, ?_, ?_⟩
  · intro o b w k hk
    have h1 : (createDaoIter b w k (Dao.new o)).next_dao_id = 1 + k := by
      have hlt : (Dao.new o).next_dao_id + k < U32MOD := by
        show 1 + k < U32MOD
        omega
      simpa using createDaoIter_next_dao_id b w k (Dao.new o) hlt
    have hc : 1 + k = k + 1 := by omega
    simp [Dao.create_dao, h1, hc]
  · intro s c b d i k dao hd h1 hk
    have h2 : (createProposalIter c b d i k s).daos.getm d
        = some { dao with next_proposal_id := dao.next_proposal_id + k } :=
      createProposalIter_daos c b d i k s dao hd (by omega)
    have hc : 1 + k = k + 1 := by omega
    simp [Dao.create_proposal, h2, h1, hc]
  · intro s c b d d2 i hne
    cases hdao : s.daos.getm d <;>
      simp [Dao.create_proposal, hdao, Map.getm_insert_ne _ _ _ _ hne]
  · intro hashFn s op hof
    cases op with
    | create_dao b w =>
      have hmod : (s.next_dao_id + 1) % U32MOD = s.next_dao_id + 1 :=
        Nat.mod_eq_of_lt hof
      simp [Dao.applyOp, Dao.create_dao, hmod]
    | transfer c t a => exact Nat.le.refl
    | mint c t a =>
      have hnd : (s.applyOp hashFn (.mint c t a)).1.next_dao_id
          = s.next_dao_id := by
        simp only [Dao.applyOp, Dao.mint]
        split <;> rfl
      rw [hnd]
    | create_proposal c b d i =>
      have hnd : (s.applyOp hashFn (.create_proposal c b d i)).1.next_dao_id
          = s.next_dao_id := by
        simp only [Dao.applyOp, Dao.create_proposal]
        split <;> rfl
      rw [hnd]
    | vote c b d p y =>
      have hnd : (s.applyOp hashFn (.vote c b d p y)).1.next_dao_id
          = s.next_dao_id := by
        simp only [Dao.applyOp, Dao.vote]
        split
        · rfl
        · split
          · rfl
          · split
            · rfl
            · split
              · rfl
              · split
                · rfl
                · split <;> rfl
      rw [hnd]
    | submit_masked_value a vh =>
      have hnd : (s.applyOp hashFn
          (.submit_masked_value a vh)).1.next_dao_id = s.next_dao_id := by
        simp only [Dao.applyOp, Dao.submit_masked_value]
        split <;> rfl
      rw [hnd]
    | reveal_value a b v =>
      have hnd : (s.applyOp hashFn (.reveal_value a b v)).1.next_dao_id
          = s.next_dao_id := by
        simp only [Dao.applyOp, Dao.reveal_value]
        split
        · rfl
        · split
          · rfl
          · split <;> rfl
      rw [hnd]
    | set_reveal_block_height a h =>
      have hnd : (s.applyOp hashFn
          (.set_reveal_block_height a h)).1.next_dao_id
          = s.next_dao_id := by
        simp only [Dao.applyOp, Dao.set_reveal_block_height]
        split <;> rfl
      rw [hnd]
  · intro hashFn s op d dao dao2 hd hnone hof hdao2
    cases op with
    | create_dao b w =>
      have hne : d ≠ s.next_dao_id := by
        intro he
        rw [he, hnone] at hd
        cases hd
      simp only [Dao.applyOp, Dao.create_dao] at hdao2
      rw [Map.getm_insert_ne _ _ _ _ hne, hd] at hdao2
      cases hdao2
      exact Nat.le.refl
    | create_proposal c b d0 i =>
      rcases hdd : s.daos.getm d0 with _ | dao0
      · have hst : (s.applyOp hashFn (.create_proposal c b d0 i)).1
            = s := by
          simp [Dao.applyOp, Dao.create_proposal, hdd]
        rw [hst, hd] at hdao2
        cases hdao2
        exact Nat.le.refl
      · have hdaos : (s.applyOp hashFn (.create_proposal c b d0 i)).1.daos
            = s.daos.insert d0
              { dao0 with next_proposal_id :=
                  (dao0.next_proposal_id + 1) % U32MOD } := by
          simp [Dao.applyOp, Dao.create_proposal, hdd]
        rw [hdaos] at hdao2
        by_cases hdd0 : d = d0
        · subst hdd0
          rw [hd] at hdd
          cases hdd
          rw [Map.getm_insert_self] at hdao2
          cases hdao2
          have hmod : (dao.next_proposal_id + 1) % U32MOD
              = dao.next_proposal_id + 1 := Nat.mod_eq_of_lt hof
          simp [hmod]
        · rw [Map.getm_insert_ne _ _ _ _ hdd0, hd] at hdao2
          cases hdao2
          exact Nat.le.refl
    | transfer c t a =>
      rw [show (s.applyOp hashFn (.transfer c t a)).1.daos = s.daos
        from rfl, hd] at hdao2
      cases hdao2
      exact Nat.le.refl
    | mint c t a =>
      have hdaos : (s.applyOp hashFn (.mint c t a)).1.daos = s.daos := by
        simp only [Dao.applyOp, Dao.mint]
        split <;> rfl
      rw [hdaos, hd] at hdao2
      cases hdao2
      exact Nat.le.refl
    | vote c b d1 p y =>
      have hdaos : (s.applyOp hashFn (.vote c b d1 p y)).1.daos
          = s.daos := by
        simp only [Dao.applyOp, Dao.vote]
        split
        · rfl
        · split
          · rfl
          · split
            · rfl
            · split
              · rfl
              · split
                · rfl
                · split <;> rfl
      rw [hdaos, hd] at hdao2
      cases hdao2
      exact Nat.le.refl
    | submit_masked_value a vh =>
      have hdaos : (s.applyOp hashFn (.submit_masked_value a vh)).1.daos
          = s.daos := by
        simp only [Dao.applyOp, Dao.submit_masked_value]
        split <;> rfl
      rw [hdaos, hd] at hdao2
      cases hdao2
      exact Nat.le.refl
    | reveal_value a b v =>
      have hdaos : (s.applyOp hashFn (.reveal_value a b v)).1.daos
          = s.daos := by
        simp only [Dao.applyOp, Dao.reveal_value]
        split
        · rfl
        · split
          · rfl
          · split <;> rfl
      rw [hdaos, hd] at hdao2
      cases hdao2
      exact Nat.le.refl
    | set_reveal_block_height a h =>
      have hdaos : (s.applyOp hashFn
          (.set_reveal_block_height a h)).1.daos = s.daos := by
        simp only [Dao.applyOp, Dao.set_reveal_block_height]
        split <;> rfl
      rw [hdaos, hd] at hdao2
      cases hdao2
      exact Nat.le.refl

/-- C7 witness: the third consecutive `create_dao` from a fresh contract
emits `DaoCreated 3`; the third consecutive `create_proposal` on DAO 1
returns proposal id 3; creating a proposal in DAO 1 leaves DAO 2's
record untouched; and the two counters do not decrease on concrete
calls. -/
theorem sequential_unique_ids_witness :
    ((2 : Nat) + 1 < U32MOD ∧
      ((Dao.new 0).create_dao 0 7).state.daos.getm 1
        = some { owner := 7, birth_block := 0, next_proposal_id := 1,
                 vote_cost := 2 } ∧
      voteScenarioState.daos.getm 1
        = some { owner := 7, birth_block := 0, next_proposal_id := 2,
                 vote_cost := 2 } ∧
      voteScenarioState.daos.getm voteScenarioState.next_dao_id = none) ∧
    (((createDaoIter 0 7 2 (Dao.new 0)).create_dao 0 7).events
        = [.DaoCreated 3] ∧
      ((createProposalIter 9 0 1 "x" 2
          ((Dao.new 0).create_dao 0 7).state).create_proposal 9 0 1
          "x").result = .ok 3 ∧
      (voteScenarioState.create_proposal 9 0 1 "x").state.daos.getm 2
        = voteScenarioState.daos.getm 2 ∧
      (Dao.new 0).next_dao_id
        ≤ ((Dao.new 0).applyOp (fun l => l) (.create_dao 0 7)).1.next_dao_id ∧
      (2 : Nat) ≤ 3) := by
  have h5 := sequential_unique_ids.2.2.2.2 (fun l => l) voteScenarioState
    (.create_proposal 9 0 1 "x") 1
    { owner := 7, birth_block := 0, next_proposal_id := 2, vote_cost := 2 }
    { owner := 7, birth_block := 0, next_proposal_id := 3, vote_cost := 2 }
    (by decide) (by decide) (by decide) (by decide)
  refine ⟨⟨by decide, by decide, by decide, by decide⟩,
    sequential_unique_ids.1 0 0 7 2 (by decide),
    sequential_unique_ids.2.1 ((Dao.new 0).create_dao 0 7).state 9 0 1 "x" 2
      { owner := 7, birth_block := 0, next_proposal_id := 1, vote_cost := 2 }
      (by decide) (by decide) (by decide),
    sequential_unique_ids.2.2.1 voteScenarioState 9 0 1 2 "x" (by decide),
    sequential_unique_ids.2.2.2.1 (fun l => l) (Dao.new 0) (.create_dao 0 7)
      (by decide),
    h5⟩

/-- C2 counterexample: `create_dao`'s return value does not carry the
allocated `DaoId`. Two consecutive calls from a fresh contract allocate
the distinct ids 1 and 2 (visible in the `DaoCreated` events), yet both
return the very same value `Ok(())` — so the claim that the newly
allocated `DaoId` is returned to the caller is false already on the first
call. -/
theorem create_dao_returns_unit_not_id :
    ((Dao.new 0).create_dao 0 7).result
        = (((Dao.new 0).create_dao 0 7).state.create_dao 0 7).result ∧
    ((Dao.new 0).create_dao 0 7).events = [.DaoCreated 1] ∧
    (((Dao.new 0).create_dao 0 7).state.create_dao 0 7).events
        = [.DaoCreated 2] ∧
    ((Dao.new 0).create_dao 0 7).result = .ok () :=
  ⟨rfl, rfl, by decide, rfl⟩

/-- C2 (amended): `create_dao(owner)` always succeeds — for every state,
caller and owner argument it returns `Ok(())` (the allocated `DaoId` is
not returned; it is only carried by the `DaoCreated` notification) — and
it stores a `DaoInfo` with `vote_cost = 2` and the given owner under the
allocated id. -/
theorem create_dao_always_ok (s : Dao) (b w : Nat) :
    (s.create_dao b w).result = .ok () ∧
    (s.create_dao b w).state.daos.getm s.next_dao_id
        = some { owner := w, birth_block := b, next_proposal_id := 1,
                 vote_cost := 2 } ∧
    (s.create_dao b w).events = [.DaoCreated s.next_dao_id] :=
  ⟨rfl, by simp [Dao.create_dao], rfl⟩

/-- C10: `create_proposal` performs no authorization check: the caller is
read but never used, so two calls differing only in the caller produce
identical outcomes (same returned `ProposalId`, same state, same events),
and for any existing DAO the call succeeds for every caller, returning the
DAO's `next_proposal_id`. -/
theorem create_proposal_ignores_caller (s : Dao) (c1 c2 : Nat) (b : Nat)
    (d : Nat) (i : String) (dao : DaoInfo) (hd : s.daos.getm d = some dao) :
    s.create_proposal c1 b d i = s.create_proposal c2 b d i ∧
    (s.create_proposal c1 b d i).result = .ok dao.next_proposal_id :=
  ⟨rfl, by simp [Dao.create_proposal, hd]⟩

/-- C9: at construction `reveal_block_height` is 0 (the `Default` of
`RandomNumber`); while it is 0 every `reveal_value` call by an account
with a stored commitment passes the block-height check at any block
number (its outcome is `Ok` or `InvalidReveal`, never
`InvalidRevealBlock`); and every operation other than
`set_reveal_block_height` leaves `reveal_block_height` unchanged. -/
theorem reveal_block_height_zero_until_set (o : Nat) :
    (Dao.new o).random_number.reveal_block_height = 0 ∧
    (∀ (hashFn : List Nat → List Nat) (s : Dao) (sender b v : Nat),
      s.random_number.reveal_block_height = 0 →
      (s.random_number.masked_values.getm sender).isSome →
      ((Dao.reveal_value hashFn s sender b v).result = .ok () ∨
        (Dao.reveal_value hashFn s sender b v).result
          = .error .InvalidReveal)) ∧
    (∀ (hashFn : List Nat → List Nat) (s : Dao) (op : Op),
      (∀ a h, op ≠ Op.set_reveal_block_height a h) →
      (s.applyOp hashFn op).1.random_number.reveal_block_height
        = s.random_number.reveal_block_height) := by
  refine ⟨rfl, ?_, ?_⟩
  · intro hashFn s sender b v hzero hsub
    unfold Dao.reveal_value
    rcases hm : s.random_number.masked_values.getm sender with _ | mv
    · rw [hm] at hsub; simp at hsub
    · simp only [hzero, ge_iff_le, Nat.zero_le, not_true_eq_false,
        if_false, ite_not]
      split <;> simp
  · intro hashFn s op hne
    cases op with
    | set_reveal_block_height a h => exact absurd rfl (hne a h)
    | transfer c t a => rfl
    | mint c t a =>
      simp only [Dao.applyOp, Dao.mint]
      split <;> rfl
    | create_dao b w => rfl
    | create_proposal c b d i =>
      simp only [Dao.applyOp, Dao.create_proposal]
      split <;> rfl
    | vote c b d p y =>
      simp only [Dao.applyOp, Dao.vote]
      split
      · rfl
      · split
        · rfl
        · split
          · rfl
          · split
            · rfl
            · split
              · rfl
              · split <;> rfl
    | submit_masked_value a vh =>
      simp only [Dao.applyOp, Dao.submit_masked_value]
      split <;> rfl
    | reveal_value a b v =>
      simp only [Dao.applyOp, Dao.reveal_value]
      split
      · rfl
      · split
        · rfl
        · split <;> rfl

/-- C9 witness: from a fresh contract the height is 0; account 1, having
committed `[1,2,3]`, reveals at block 0 and is not rejected with
`InvalidRevealBlock` (here the hash mismatches, so `InvalidReveal`); and
a `mint` leaves the height unchanged. -/
theorem reveal_block_height_zero_until_set_witness :
    (Dao.new 0).random_number.reveal_block_height = 0 ∧
    ((((Dao.new 0).submit_masked_value 1
        [1, 2, 3]).state.random_number.reveal_block_height = 0 ∧
      (((Dao.new 0).submit_masked_value 1
        [1, 2, 3]).state.random_number.masked_values.getm 1).isSome) ∧
      ((Dao.reveal_value (fun l => l)
          ((Dao.new 0).submit_masked_value 1 [1, 2, 3]).state 1 0 5).result
          = .ok () ∨
        (Dao.reveal_value (fun l => l)
          ((Dao.new 0).submit_masked_value 1 [1, 2, 3]).state 1 0 5).result
          = .error .InvalidReveal)) ∧
    (((Dao.new 0).applyOp (fun l => l)
        (.mint 0 1 5)).1.random_number.reveal_block_height
      = (Dao.new 0).random_number.reveal_block_height) :=
  ⟨(reveal_block_height_zero_until_set 0).1,
    ⟨⟨by decide, by decide⟩,
      (reveal_block_height_zero_until_set 0).2.1 (fun l => l) _ 1 0 5
        (by decide) (by decide)⟩,
    (reveal_block_height_zero_until_set 0).2.2 (fun l => l) _ (.mint 0 1 5)
      (fun a h hcon => Op.noConfusion hcon)⟩

/-- C8: error atomicity — for every public operation and every starting
state, a call that returns an error leaves the entire contract state
exactly as it was (no partial commit). -/
theorem error_means_no_state_change (hashFn : List Nat → List Nat)
    (s : Dao) (op : Op) (e : ContractError)
    (h : (s.applyOp hashFn op).2 = .error e) : (s.applyOp hashFn op).1 = s := by
  cases op <;>
    simp only [Dao.applyOp, Dao.transfer, Dao.mint, Dao.create_dao,
      Dao.create_proposal, Dao.vote, Dao.submit_masked_value,
      Dao.reveal_value, Dao.set_reveal_block_height] at h ⊢ <;>
    (repeat' split at h) <;> (repeat' split) <;> first | rfl | simp_all

/-- C8 witness: account 5 (not the owner) calls `mint` on a fresh
contract; the call fails with `InsufficientPerimssion` and the state is
exactly the fresh state. -/
theorem error_means_no_state_change_witness :
    ((Dao.new 0).applyOp (fun l => l) (.mint 5 7 10)).2
        = .error .InsufficientPerimssion ∧
    ((Dao.new 0).applyOp (fun l => l) (.mint 5 7 10)).1 = Dao.new 0 :=
  ⟨rfl,
    error_means_no_state_change (fun l => l) (Dao.new 0) (.mint 5 7 10)
      .InsufficientPerimssion rfl⟩

/-- C10 witness: on the DAO with id 1 created from a fresh contract,
callers 8 and 9 get identical outcomes and proposal id 1. -/
theorem create_proposal_ignores_caller_witness :
    ((Dao.new 0).create_dao 0 7).state.daos.getm 1
        = some { owner := 7, birth_block := 0, next_proposal_id := 1,
                 vote_cost := 2 } ∧
    (((Dao.new 0).create_dao 0 7).state.create_proposal 8 3 1 "p"
        = ((Dao.new 0).create_dao 0 7).state.create_proposal 9 3 1 "p" ∧
      (((Dao.new 0).create_dao 0 7).state.create_proposal 8 3 1 "p").result
        = .ok 1) :=
  ⟨by decide,
    create_proposal_ignores_caller _ 8 9 3 1 "p"
      { owner := 7, birth_block := 0, next_proposal_id := 1, vote_cost := 2 }
      (by decide)⟩

end DaoContract
